import Mathlib

/-!
Verification of the token qualification-and-persistence pipeline of
`src/app.py` (crypto-bot).  Python's dynamic JSON values are embedded as the
inductive type `JVal`; Python machine floats are modelled as exact rationals
(no NaN/infinity values appear in the modelled code paths); Python exceptions
(`AttributeError`, `ValueError`, `TypeError`) are modelled with `Except`.
-/

namespace CryptoBot

/-- A Python/JSON value, as produced by `json.load` / `response.json()`. -/
inductive JVal where
  | jnull
  | jbool (b : Bool)
  | jnum (q : ℚ)
  | jstr (s : String)
  | jarr (xs : List JVal)
  | jobj (fields : List (String × JVal))

/-- Python exceptions raised by the modelled code. -/
inductive PyErr where
  | attributeError
  | valueError
  | typeError
deriving DecidableEq, Repr

mutual

/-- Python `==` on JSON values.  `True`/`False` compare equal to the numbers
`1`/`0`.  (Python dict equality is key-order-insensitive; the modelled
program never compares two dicts with `==`, so object fields are compared in
order here.) -/
def pyEq : JVal → JVal → Bool
  | .jnull, .jnull => true
  | .jbool a, .jbool b => a == b
  | .jbool a, .jnum q => decide ((if a then (1 : ℚ) else 0) = q)
  | .jnum q, .jbool a => decide (q = if a then (1 : ℚ) else 0)
  | .jnum a, .jnum b => a == b
  | .jstr a, .jstr b => a == b
  | .jarr xs, .jarr ys => pyEqList xs ys
  | .jobj fs, .jobj gs => pyEqObj fs gs
  | _, _ => false

/-- Elementwise Python `==` on lists. -/
def pyEqList : List JVal → List JVal → Bool
  | [], [] => true
  | x :: xs, y :: ys => pyEq x y && pyEqList xs ys
  | _, _ => false

/-- Fieldwise Python `==` on objects (in field order). -/
def pyEqObj : List (String × JVal) → List (String × JVal) → Bool
  | [], [] => true
  | (k, v) :: fs, (l, w) :: gs => k == l && pyEq v w && pyEqObj fs gs
  | _, _ => false

end

/-- Python `v in l` membership test on a list. -/
def pyMem (x : JVal) (l : List JVal) : Bool := l.any (fun y => pyEq x y)

/-- Python truthiness (`if v:`). -/
def pyTruthy : JVal → Bool
  | .jnull => false
  | .jbool b => b
  | .jnum q => decide (q ≠ 0)
  | .jstr s => decide (s ≠ "")
  | .jarr xs => !xs.isEmpty
  | .jobj fs => !fs.isEmpty

mutual

theorem pyEq_refl : ∀ x : JVal, pyEq x x = true
  | .jnull => rfl
  | .jbool b => by simp [pyEq]
  | .jnum q => by simp [pyEq]
  | .jstr s => by simp [pyEq]
  | .jarr xs => by simp [pyEq, pyEqList_refl xs]
  | .jobj fs => by simp [pyEq, pyEqObj_refl fs]

theorem pyEqList_refl : ∀ xs : List JVal, pyEqList xs xs = true
  | [] => rfl
  | x :: xs => by simp [pyEqList, pyEq_refl x, pyEqList_refl xs]

theorem pyEqObj_refl : ∀ fs : List (String × JVal), pyEqObj fs fs = true
  | [] => rfl
  | (k, v) :: fs => by simp [pyEqObj, pyEq_refl v, pyEqObj_refl fs]

end

/-- A value Python-equal to a string literal is that string. -/
theorem pyEq_jstr_iff (v : JVal) (s : String) :
    pyEq v (.jstr s) = true ↔ v = .jstr s := by
  cases v <;> simp [pyEq]

/-- First binding of `key` in a dict's field list (Python dict keys are
unique, so first-match lookup is faithful). -/
def lookupField : List (String × JVal) → String → Option JVal
  | [], _ => none
  | (k, v) :: rest, key => if k = key then some v else lookupField rest key

/-- Python `d.get(key, default)`.  Calling `.get` on a non-dict value raises
`AttributeError`. -/
def pyGet (v : JVal) (key : String) (dflt : JVal) : Except PyErr JVal :=
  match v with
  | .jobj fs => .ok ((lookupField fs key).getD dflt)
  | _ => .error .attributeError

/-- Digit-string to number; `none` on a non-digit.  An empty list yields `0`
(the caller checks that at least one digit is present overall). -/
def decDigits : List Char → Option ℕ
  | [] => some 0
  | c :: cs =>
    if c.isDigit then
      (decDigits cs).map (fun n => (c.toNat - 48) * 10 ^ cs.length + n)
    else
      none

/-- The decimal-literal fragment of Python's `float(str)` conversion:
optional sign, digits with an optional fractional part (`"1"`, `"-2.5"`,
`".5"`, `"1."`).  Exponents, `inf`/`nan` and surrounding whitespace are
outside the rational model; no such string appears in any input considered
here, and every malformed string is rejected exactly as Python rejects it. -/
def pyFloatOfString (s : String) : Option ℚ :=
  let cs := s.data
  let signAndRest : ℚ × List Char :=
    match cs with
    | '+' :: r => (1, r)
    | '-' :: r => (-1, r)
    | r => (1, r)
  let sign := signAndRest.1
  let body := signAndRest.2
  let ip := body.takeWhile (· ≠ '.')
  let rest := body.dropWhile (· ≠ '.')
  let fp? : Option (List Char) :=
    match rest with
    | [] => some []
    | _ :: r => if r.contains '.' then none else some r
  match fp? with
  | none => none
  | some fp =>
    if ip = [] ∧ fp = [] then none
    else
      match decDigits ip, decDigits fp with
      | some i, some f => some (sign * ((i : ℚ) + (f : ℚ) / 10 ^ fp.length))
      | _, _ => none

/-- Python `float(v)`: numbers pass through, booleans become `1.0`/`0.0`,
numeric strings are parsed (`ValueError` otherwise), and any other value
raises `TypeError`. -/
def pyFloat : JVal → Except PyErr ℚ
  | .jnum q => .ok q
  | .jbool b => .ok (if b then 1 else 0)
  | .jstr s =>
    match pyFloatOfString s with
    | some q => .ok q
    | none => .error .valueError
  | _ => .error .typeError

/-!
## The program state

`config.json` is loaded once at start into the process-wide `config` dict and
rewritten by `add_to_blacklist`.  The filter thresholds are numeric per the
config schema; the two blacklists are JSON lists whose elements stay fully
dynamic (`add_to_blacklist` appends whatever value `baseToken.address` held).
-/

/-- The parts of the `config` dict that the pipeline reads and writes:
`config["filters"]["min_liquidity"]`, `config["filters"]["min_market_cap"]`,
`config["blacklisted_coins"]`, `config["blacklisted_devs"]`. -/
structure Config where
  min_liquidity : ℚ
  min_market_cap : ℚ
  blacklisted_coins : List JVal
  blacklisted_devs : List JVal

/-- An HTTP response as seen by the code: `response.status_code` and the
parsed `response.json()` body. -/
structure HttpResponse where
  status_code : ℕ
  body : JVal

/-- One row of the `tokens` table (surrogate id and auto timestamp omitted:
they are assigned by SQLite, not by the modelled code).  SQLite stores the
`INTEGER` flags as `1`/`0`; they are `Bool` here. -/
structure TokenRow where
  symbol : JVal
  name : JVal
  price : ℚ
  liquidity : ℚ
  market_cap : ℚ
  is_cex_listed : Bool
  is_rugged : Bool
  is_pumped : Bool
  is_fake_volume : Bool
  dev_address : JVal
  is_bundled_supply : Bool
  rugcheck_status : JVal

/-- The mutable state a pipeline pass touches: the config (in memory and
mirrored to `config.json`), the `tokens` table, and the list of trade POSTs
issued to the BonkBot endpoint (each a token address and an action). -/
structure BotState where
  cfg : Config
  db : List TokenRow
  trades : List (String × String)

/-- `json.dump(config, f)` writes a JSON object determined by the config
value; the persisted `config.json` file is modelled as this serialization. -/
def configJson (cfg : Config) : JVal :=
  .jobj [("filters", .jobj [("min_liquidity", .jnum cfg.min_liquidity),
                            ("min_market_cap", .jnum cfg.min_market_cap)]),
         ("blacklisted_coins", .jarr cfg.blacklisted_coins),
         ("blacklisted_devs", .jarr cfg.blacklisted_devs)]

/-!
## The pipeline functions of `src/app.py`
-/

/-- `passes_filters(token)` (app.py lines 61-65):
`liquidity = float(token.get('liquidity', {}).get('usd', 0))`,
`market_cap = float(token.get('fdv', 0))`, then both thresholds must be
met-or-exceeded. -/
def passes_filters (cfg : Config) (token : JVal) : Except PyErr Bool := do
  let liquidity ← pyFloat (← pyGet (← pyGet token "liquidity" (.jobj [])) "usd" (.jnum 0))
  let market_cap ← pyFloat (← pyGet token "fdv" (.jnum 0))
  pure (decide (liquidity ≥ cfg.min_liquidity) && decide (market_cap ≥ cfg.min_market_cap))

/-- `is_blacklisted(token_address, dev_address)` (app.py lines 68-70):
Python `in` membership against the two config lists. -/
def is_blacklisted (cfg : Config) (token_address dev_address : JVal) : Bool :=
  pyMem token_address cfg.blacklisted_coins || pyMem dev_address cfg.blacklisted_devs

/-- `check_rugcheck_status(token_address)` (app.py lines 73-81), as a function
of the audit endpoint's response for that address: on a 200 response it
returns `data.get("status", "Unknown")`, otherwise the string `"Unknown"`. -/
def check_rugcheck_status (resp : HttpResponse) : Except PyErr JVal :=
  if resp.status_code = 200 then
    pyGet resp.body "status" (.jstr "Unknown")
  else
    .ok (.jstr "Unknown")

/-- `float(holder.get('balance', 0))` for one element of the holder list. -/
def holderBalance (h : JVal) : Except PyErr ℚ := do
  pyFloat (← pyGet h "balance" (.jnum 0))

/-- The `for holder in holders:` loop of `is_bundled_supply` (app.py lines
88-91): return `True` at the first holder whose balance exceeds
`0.5 * total_supply`, `False` if none does. -/
def checkHolders : List JVal → ℚ → Except PyErr Bool
  | [], _ => .ok false
  | h :: rest, total_supply => do
    let balance ← holderBalance h
    if balance > (0.5 : ℚ) * total_supply then .ok true
    else checkHolders rest total_supply

/-- `is_bundled_supply(token_data)` (app.py lines 84-92).  The guard
`if holders:` is Python truthiness; the loop iterates `holders`, so a truthy
non-list raises when iterated (`TypeError`) or when `.get` is called on a
character / dict key (`AttributeError`).  The source reads
`token_data.get('pair', {})` twice (lines 85 and 87), mirrored here. -/
def is_bundled_supply (token_data : JVal) : Except PyErr Bool := do
  let holders ← pyGet (← pyGet token_data "pair" (.jobj [])) "holders" (.jarr [])
  if pyTruthy holders then do
    let total_supply ← pyFloat (← pyGet (← pyGet token_data "pair" (.jobj [])) "totalSupply" (.jnum 0))
    match holders with
    | .jarr hs => checkHolders hs total_supply
    | .jstr _ => .error .attributeError
    | .jobj _ => .error .attributeError
    | _ => .error .typeError
  else
    pure false

/-- `add_to_blacklist(token_address, dev_address)` (app.py lines 95-101):
append each address to its list when absent, then rewrite `config.json`
(the persisted file is `configJson` of the result). -/
def add_to_blacklist (cfg : Config) (token_address dev_address : JVal) : Config :=
  { cfg with
    blacklisted_coins :=
      if pyMem token_address cfg.blacklisted_coins then cfg.blacklisted_coins
      else cfg.blacklisted_coins ++ [token_address]
    blacklisted_devs :=
      if pyMem dev_address cfg.blacklisted_devs then cfg.blacklisted_devs
      else cfg.blacklisted_devs ++ [dev_address] }

/-- `execute_trade(token_address, action)` (app.py lines 104-118) always
issues the POST; the response only affects the UI message.  Modelled as
recording the issued request. -/
def execute_trade (trades : List (String × String)) (token_address action : String) :
    List (String × String) :=
  trades ++ [(token_address, action)]

/-- The straight-line field extraction of `save_token_data` (app.py lines
126-136), up to and including `is_bundled_supply_flag`. -/
structure Extracted where
  symbol : JVal
  name : JVal
  price : ℚ
  liquidity : ℚ
  market_cap : ℚ
  is_cex_listed : Bool
  is_rugged : Bool
  is_pumped : Bool
  dev_address : JVal
  is_bundled : Bool

/-- App.py lines 126-136, in source order.  `token.get('dexId')` has default
`None`; `is_rugged = 1 if liquidity == 0 and price == 0 else 0`;
`is_pumped = 1 if price > 1000 else 0`. -/
def extractFields (token_data : JVal) : Except PyErr Extracted := do
  let token ← pyGet token_data "pair" (.jobj [])
  let symbol ← pyGet (← pyGet token "baseToken" (.jobj [])) "symbol" (.jstr "")
  let name ← pyGet (← pyGet token "baseToken" (.jobj [])) "name" (.jstr "")
  let price ← pyFloat (← pyGet token "priceUsd" (.jnum 0))
  let liquidity ← pyFloat (← pyGet (← pyGet token "liquidity" (.jobj [])) "usd" (.jnum 0))
  let market_cap ← pyFloat (← pyGet token "fdv" (.jnum 0))
  let dexId ← pyGet token "dexId" .jnull
  let is_cex_listed := pyEq dexId (.jstr "cex")
  let is_rugged := decide (liquidity = 0) && decide (price = 0)
  let is_pumped := decide (price > 1000)
  let dev_address ← pyGet (← pyGet token "baseToken" (.jobj [])) "address" (.jstr "")
  let is_bundled ← is_bundled_supply token_data
  pure { symbol, name, price, liquidity, market_cap, is_cex_listed,
         is_rugged, is_pumped, dev_address, is_bundled }

/-- The row bound to the `INSERT INTO tokens` parameters (app.py lines
146-149): the extracted fields, `is_fake_volume` fixed at `0`, and the
rugcheck status. -/
def mkRow (e : Extracted) (rugcheck_status : JVal) : TokenRow :=
  { symbol := e.symbol, name := e.name, price := e.price,
    liquidity := e.liquidity, market_cap := e.market_cap,
    is_cex_listed := e.is_cex_listed, is_rugged := e.is_rugged,
    is_pumped := e.is_pumped, is_fake_volume := false,
    dev_address := e.dev_address, is_bundled_supply := e.is_bundled,
    rugcheck_status := rugcheck_status }

/-- `save_token_data(token_data, token_address)` (app.py lines 121-155), as a
state transformer.  `auditResp` is the audit endpoint's response for
`token_address` (consumed by `check_rugcheck_status`, line 137).  Line 140:
blacklist add when the supply is bundled.  Lines 144-152: insert the row and
issue the buy trade only if `not is_blacklisted(...)` — evaluated against the
config as already mutated — and `rugcheck_status == "Good"`. -/
def save_token_data (st : BotState) (token_data : JVal) (token_address : String)
    (auditResp : HttpResponse) : Except PyErr BotState := do
  let e ← extractFields token_data
  let rugcheck_status ← check_rugcheck_status auditResp
  let cfg1 :=
    if e.is_bundled then add_to_blacklist st.cfg (.jstr token_address) e.dev_address
    else st.cfg
  if !is_blacklisted cfg1 (.jstr token_address) e.dev_address &&
      pyEq rugcheck_status (.jstr "Good") then
    pure { cfg := cfg1, db := st.db ++ [mkRow e rugcheck_status],
           trades := execute_trade st.trades token_address "buy" }
  else
    pure { cfg := cfg1, db := st.db, trades := st.trades }

/-- Number of occurrences of `x` in `l` under Python `==` (the notion of
"occurrence" relevant to Python's `in` test used by `add_to_blacklist`). -/
def countPy (x : JVal) (l : List JVal) : ℕ := (l.filter (fun y => pyEq x y)).length

/-!
## Concrete example inputs, used by the witness theorems
-/

/-- Thresholds of end-to-end scenario 1; empty blacklists. -/
def exCfg : Config := ⟨10000, 1000000, [], []⟩

/-- Scenario-1 pair: liquidity $50,000, fdv $2,000,000, empty holder list. -/
def exPairClean : JVal :=
  .jobj [("baseToken", .jobj [("symbol", .jstr "TOK"), ("name", .jstr "Token"),
                              ("address", .jstr "0xdev")]),
         ("priceUsd", .jnum 2), ("liquidity", .jobj [("usd", .jnum 50000)]),
         ("fdv", .jnum 2000000), ("dexId", .jstr "raydium"),
         ("holders", .jarr []), ("totalSupply", .jnum 100)]

def exTdClean : JVal := .jobj [("pair", exPairClean)]

/-- Scenario-2 pair: one holder owns 60 of a total supply of 100. -/
def exPairBundled : JVal :=
  .jobj [("baseToken", .jobj [("symbol", .jstr "TOK"), ("name", .jstr "Token"),
                              ("address", .jstr "0xdev")]),
         ("priceUsd", .jnum 2), ("liquidity", .jobj [("usd", .jnum 50000)]),
         ("fdv", .jnum 2000000), ("dexId", .jstr "raydium"),
         ("holders", .jarr [.jobj [("balance", .jnum 60)]]), ("totalSupply", .jnum 100)]

def exTdBundled : JVal := .jobj [("pair", exPairBundled)]

/-- Zero total supply with one strictly positive holder balance. -/
def exPairZeroSupply : JVal :=
  .jobj [("baseToken", .jobj [("address", .jstr "0xdev")]),
         ("holders", .jarr [.jobj [("balance", .jnum 5)]]), ("totalSupply", .jnum 0)]

def exTdZeroSupply : JVal := .jobj [("pair", exPairZeroSupply)]

/-- A 200 audit response whose status field is `"Good"`. -/
def exRespGood : HttpResponse := ⟨200, .jobj [("status", .jstr "Good")]⟩

/-- The extraction result for `exTdBundled`. -/
def exEBundled : Extracted :=
  ⟨.jstr "TOK", .jstr "Token", 2, 50000, 2000000, false, false, false,
   .jstr "0xdev", true⟩

/-- The row `save_token_data` inserts for `exTdClean`. -/
def exRowClean : TokenRow :=
  ⟨.jstr "TOK", .jstr "Token", 2, 50000, 2000000, false, false, false, false,
   .jstr "0xdev", false, .jstr "Good"⟩

def exSt : BotState := ⟨exCfg, [], []⟩

/-- State after the scenario-1 pass: row inserted, buy trade issued. -/
def exStInserted : BotState := ⟨exCfg, [exRowClean], [("0xtok", "buy")]⟩

/-- State after the scenario-2 pass: blacklists grown, nothing inserted. -/
def exStBlacklisted : BotState :=
  ⟨⟨10000, 1000000, [.jstr "0xtok"], [.jstr "0xdev"]⟩, [], []⟩

/-!
## Helper lemmas
-/

theorem exBind_ok {α β : Type} (a : α) (f : α → Except PyErr β) :
    (Except.ok a >>= f : Except PyErr β) = f a := rfl

theorem exBind_error {α β : Type} (err : PyErr) (f : α → Except PyErr β) :
    (Except.error err >>= f : Except PyErr β) = Except.error err := rfl

theorem pyMem_append_self (x : JVal) (l : List JVal) :
    pyMem x (l ++ [x]) = true := by
  simp [pyMem, List.any_append, pyEq_refl]

/-- `pyMem` detects exactly a positive Python-equality occurrence count. -/
theorem pyMem_iff_countPy (x : JVal) (l : List JVal) :
    pyMem x l = true ↔ countPy x l ≠ 0 := by
  induction l with
  | nil => simp [pyMem, countPy]
  | cons y ys ih =>
    by_cases h : pyEq x y = true
    · simp [pyMem, countPy, h]
    · simp only [Bool.not_eq_true] at h
      simp [pyMem, countPy, h, ih]

theorem countPy_append_self (x : JVal) (l : List JVal) :
    countPy x (l ++ [x]) = countPy x l + 1 := by
  simp [countPy, List.filter_append, pyEq_refl x]

/-- The token address is in the blacklist after `add_to_blacklist`. -/
theorem add_to_blacklist_mem_coins (cfg : Config) (t d : JVal) :
    pyMem t (add_to_blacklist cfg t d).blacklisted_coins = true := by
  unfold add_to_blacklist
  by_cases h : pyMem t cfg.blacklisted_coins = true
  · simp [h]
  · simp only [Bool.not_eq_true] at h
    simp [h, pyMem_append_self]

/-- The developer address is in the blacklist after `add_to_blacklist`. -/
theorem add_to_blacklist_mem_devs (cfg : Config) (t d : JVal) :
    pyMem d (add_to_blacklist cfg t d).blacklisted_devs = true := by
  unfold add_to_blacklist
  by_cases h : pyMem d cfg.blacklisted_devs = true
  · simp [h]
  · simp only [Bool.not_eq_true] at h
    simp [h, pyMem_append_self]

/-- When every balance in the holder list converts, the loop computes exactly
"some holder's balance exceeds half the total supply". -/
theorem checkHolders_ok_iff (hs : List JVal) (ts : ℚ)
    (hall : ∀ h ∈ hs, ∃ b, holderBalance h = .ok b) :
    ∃ r, checkHolders hs ts = .ok r ∧
      (r = true ↔ ∃ h ∈ hs, ∃ b, holderBalance h = .ok b ∧ b > (0.5 : ℚ) * ts) := by
  induction hs with
  | nil => exact ⟨false, rfl, by simp⟩
  | cons x xs ih =>
    obtain ⟨bx, hbx⟩ := hall x (by simp)
    obtain ⟨r, hr, hiff⟩ := ih (fun h hh => hall h (List.mem_cons_of_mem _ hh))
    by_cases hgt : bx > (0.5 : ℚ) * ts
    · refine ⟨true, ?_, ?_⟩
      · rw [checkHolders, hbx, exBind_ok, if_pos hgt]
      · simp only [true_iff]
        exact ⟨x, by simp, bx, hbx, hgt⟩
    · refine ⟨r, ?_, ?_⟩
      · rw [checkHolders, hbx, exBind_ok, if_neg hgt]
        exact hr
      · rw [hiff]
        constructor
        · rintro ⟨h, hh, b, hb, hbgt⟩
          exact ⟨h, List.mem_cons_of_mem _ hh, b, hb, hbgt⟩
        · rintro ⟨h, hh, b, hb, hbgt⟩
          rcases List.mem_cons.mp hh with rfl | hh2
          · rw [hbx] at hb
            injection hb with hbe
            subst hbe
            exact absurd hbgt hgt
          · exact ⟨h, hh2, b, hb, hbgt⟩

/-- Evaluation of `is_bundled_supply` once the pair, the holder list and the
total supply are known. -/
theorem is_bundled_supply_eval (td pair tsv : JVal) (hs : List JVal) (ts : ℚ)
    (hp : pyGet td "pair" (.jobj []) = .ok pair)
    (hh : pyGet pair "holders" (.jarr []) = .ok (.jarr hs))
    (htsv : pyGet pair "totalSupply" (.jnum 0) = .ok tsv)
    (hts : pyFloat tsv = .ok ts) :
    is_bundled_supply td = if hs.isEmpty then .ok false else checkHolders hs ts := by
  unfold is_bundled_supply
  rw [hp, exBind_ok, hh, exBind_ok]
  cases hs with
  | nil =>
    simp [pyTruthy]
    rfl
  | cons x xs =>
    simp only [pyTruthy, List.isEmpty_cons, Bool.not_false, Bool.false_eq_true,
      if_true, if_false]
    rw [exBind_ok, htsv, exBind_ok, hts, exBind_ok]

theorem exBind_eq_ok {α β : Type} {x : Except PyErr α} {f : α → Except PyErr β}
    {b : β} (h : (x >>= f) = .ok b) : ∃ a, x = .ok a ∧ f a = .ok b := by
  cases x with
  | error err => rw [exBind_error] at h; cases h
  | ok a => exact ⟨a, rfl, h⟩

/-- Facts about a successful field extraction: the rugged flag is the
conjunction `liquidity == 0 and price == 0`, the bundled flag is the value of
`is_bundled_supply`, and the developer address is the pair's
`baseToken.address` lookup. -/
theorem extractFields_ok_props (td : JVal) (e : Extracted)
    (he : extractFields td = .ok e) :
    e.is_rugged = (decide (e.liquidity = 0) && decide (e.price = 0)) ∧
    is_bundled_supply td = .ok e.is_bundled ∧
    ∀ pair bt dv, pyGet td "pair" (.jobj []) = .ok pair →
      pyGet pair "baseToken" (.jobj []) = .ok bt →
      pyGet bt "address" (.jstr "") = .ok dv → e.dev_address = dv := by
  unfold extractFields at he
  obtain ⟨token, h1, he⟩ := exBind_eq_ok he
  obtain ⟨bt1, h2, he⟩ := exBind_eq_ok he
  obtain ⟨symbol, h3, he⟩ := exBind_eq_ok he
  obtain ⟨bt2, h4, he⟩ := exBind_eq_ok he
  obtain ⟨name, h5, he⟩ := exBind_eq_ok he
  obtain ⟨pv, h6, he⟩ := exBind_eq_ok he
  obtain ⟨price, h7, he⟩ := exBind_eq_ok he
  obtain ⟨lv, h8, he⟩ := exBind_eq_ok he
  obtain ⟨uv, h9, he⟩ := exBind_eq_ok he
  obtain ⟨liq, h10, he⟩ := exBind_eq_ok he
  obtain ⟨fv, h11, he⟩ := exBind_eq_ok he
  obtain ⟨mc, h12, he⟩ := exBind_eq_ok he
  obtain ⟨dexId, h13, he⟩ := exBind_eq_ok he
  obtain ⟨bt3, h14, he⟩ := exBind_eq_ok he
  obtain ⟨dv0, h15, he⟩ := exBind_eq_ok he
  obtain ⟨bundled, h16, he⟩ := exBind_eq_ok he
  injection he with he'
  subst he'
  refine ⟨rfl, h16, ?_⟩
  intro pair bt dv hp hb ha
  rw [h1] at hp
  injection hp with hp'
  subst hp'
  rw [h14] at hb
  injection hb with hb'
  subst hb'
  rw [h15] at ha
  injection ha

/-- Complete case analysis of a successful `save_token_data` pass: the
extraction and the audit lookup succeeded, the final config is the one the
bundled-supply check may have grown, and either the gate passed (row
appended, buy trade issued) or it failed (database and trades untouched). -/
theorem save_token_data_ok_cases (st : BotState) (td : JVal) (addr : String)
    (resp : HttpResponse) (st' : BotState)
    (h : save_token_data st td addr resp = .ok st') :
    ∃ e rs, extractFields td = .ok e ∧ check_rugcheck_status resp = .ok rs ∧
      st'.cfg = (if e.is_bundled then
                   add_to_blacklist st.cfg (.jstr addr) e.dev_address
                 else st.cfg) ∧
      ((is_blacklisted st'.cfg (.jstr addr) e.dev_address = false ∧
          rs = .jstr "Good" ∧ st'.db = st.db ++ [mkRow e rs] ∧
          st'.trades = st.trades ++ [(addr, "buy")]) ∨
        ((is_blacklisted st'.cfg (.jstr addr) e.dev_address = true ∨
            rs ≠ .jstr "Good") ∧
          st'.db = st.db ∧ st'.trades = st.trades)) := by
  unfold save_token_data at h
  obtain ⟨e, he, h⟩ := exBind_eq_ok h
  obtain ⟨rs, hr, h⟩ := exBind_eq_ok h
  refine ⟨e, rs, he, hr, ?_⟩
  by_cases hc : (!is_blacklisted
      (if e.is_bundled then add_to_blacklist st.cfg (.jstr addr) e.dev_address
       else st.cfg) (.jstr addr) e.dev_address &&
      pyEq rs (.jstr "Good")) = true
  · rw [if_pos hc] at h
    injection h with h'
    subst h'
    obtain ⟨hnb, hgood⟩ := Bool.and_eq_true_iff.mp hc
    rw [Bool.not_eq_true'] at hnb
    refine ⟨rfl, Or.inl ⟨hnb, (pyEq_jstr_iff rs "Good").mp hgood, rfl, rfl⟩⟩
  · rw [if_neg hc] at h
    injection h with h'
    subst h'
    rw [Bool.and_eq_true, not_and_or] at hc
    refine ⟨rfl, Or.inr ⟨?_, rfl, rfl⟩⟩
    rcases hc with hc | hc
    · left
      rw [Bool.not_eq_true, Bool.not_eq_false'] at hc
      exact hc
    · right
      intro hrs
      exact hc (by rw [hrs]; exact pyEq_refl _)

/-- `is_bundled_supply` short-circuits to `False` on an empty (or absent,
defaulting to empty) holder list, before the total supply is even read. -/
theorem is_bundled_supply_empty (td pair : JVal)
    (hp : pyGet td "pair" (.jobj []) = .ok pair)
    (hh : pyGet pair "holders" (.jarr []) = .ok (.jarr [])) :
    is_bundled_supply td = .ok false := by
  unfold is_bundled_supply
  rw [hp, exBind_ok, hh, exBind_ok]
  simp [pyTruthy]
  rfl

/-!
## Claim theorems
-/

/-- C3: for every pair record whose liquidity-USD and fdv lookups (with zero
defaults) convert to the rationals `liq` and `mc`, `passes_filters` returns
`True` iff both values meet-or-exceed the configured thresholds, and in
particular returns `False` whenever either value is below its threshold. -/
theorem passes_filters_iff_thresholds (cfg : Config) (token lv uv fv : JVal)
    (liq mc : ℚ)
    (h1 : pyGet token "liquidity" (.jobj []) = .ok lv)
    (h2 : pyGet lv "usd" (.jnum 0) = .ok uv)
    (h3 : pyFloat uv = .ok liq)
    (h4 : pyGet token "fdv" (.jnum 0) = .ok fv)
    (h5 : pyFloat fv = .ok mc) :
    (passes_filters cfg token = .ok true ↔
      cfg.min_liquidity ≤ liq ∧ cfg.min_market_cap ≤ mc) ∧
    ((liq < cfg.min_liquidity ∨ mc < cfg.min_market_cap) →
      passes_filters cfg token = .ok false) := by
  have hpf : passes_filters cfg token =
      .ok (decide (liq ≥ cfg.min_liquidity) && decide (mc ≥ cfg.min_market_cap)) := by
    unfold passes_filters
    rw [h1, exBind_ok, h2, exBind_ok, h3, exBind_ok, h4, exBind_ok, h5, exBind_ok]
    rfl
  rw [hpf]
  constructor
  · simp [ge_iff_le, and_comm]
  · intro hlt
    rcases hlt with hl | hl
    · rw [decide_eq_false (not_le.mpr hl), Bool.false_and]
    · rw [decide_eq_false (not_le.mpr hl), Bool.and_false]

/-- C3 witness: the scenario-1 pair (liquidity 50000, fdv 2000000) passes
the thresholds 10000 / 1000000. -/
theorem passes_filters_iff_thresholds_witness :
    passes_filters exCfg exPairClean = .ok true :=
  ((passes_filters_iff_thresholds exCfg exPairClean
      (.jobj [("usd", .jnum 50000)]) (.jnum 50000) (.jnum 2000000) 50000 2000000
      rfl rfl rfl rfl rfl).1).mpr (by constructor <;> norm_num [exCfg])

/-- C7 counterexample: a pair whose `liquidity.usd` field holds a
non-numeric string makes `passes_filters` raise a `ValueError` (Python's
`float("not a number")`), instead of coercing the malformed value to zero
and returning a boolean. -/
theorem passes_filters_malformed_raises :
    passes_filters exCfg (.jobj [("liquidity", .jobj [("usd", .jstr "not a number")])]) =
      .error .valueError := rfl

/-- C7 amended: `passes_filters` is pure, and missing liquidity/fdv fields
are coerced to zero and yield a boolean; only a malformed (non-convertible)
present value raises a conversion error instead of being coerced. -/
theorem passes_filters_missing_defaults_zero (cfg : Config)
    (fs : List (String × JVal))
    (hliq : lookupField fs "liquidity" = none)
    (hfdv : lookupField fs "fdv" = none) :
    passes_filters cfg (.jobj fs) =
      .ok (decide ((0 : ℚ) ≥ cfg.min_liquidity) &&
           decide ((0 : ℚ) ≥ cfg.min_market_cap)) := by
  unfold passes_filters
  rw [show pyGet (.jobj fs) "liquidity" (.jobj []) = .ok (.jobj []) by
        simp [pyGet, hliq],
      exBind_ok]
  rw [show pyGet (.jobj ([] : List (String × JVal))) "usd" (.jnum 0) = .ok (.jnum 0)
        from rfl,
      exBind_ok]
  rw [show pyFloat (.jnum 0) = .ok 0 from rfl, exBind_ok]
  rw [show pyGet (.jobj fs) "fdv" (.jnum 0) = .ok (.jnum 0) by simp [pyGet, hfdv],
      exBind_ok]
  rfl

/-- C7 witness: on the empty pair record both reads default to zero and the
filter returns the boolean `False` for positive thresholds. -/
theorem passes_filters_missing_defaults_zero_witness :
    passes_filters exCfg (.jobj []) = .ok false := by
  rw [passes_filters_missing_defaults_zero exCfg [] rfl rfl]
  rfl

/-- C4: if every balance in the pair's holder list converts and some single
holder's balance exceeds 50 percent of the converted total supply,
`is_bundled_supply` returns `True`; and on an absent-or-empty holder list it
returns `False` (without reading the total supply). -/
theorem is_bundled_supply_spec (td pair tsv : JVal) (hs : List JVal) (ts : ℚ)
    (hp : pyGet td "pair" (.jobj []) = .ok pair)
    (hh : pyGet pair "holders" (.jarr []) = .ok (.jarr hs)) :
    ((∀ h ∈ hs, ∃ b, holderBalance h = .ok b) →
      pyGet pair "totalSupply" (.jnum 0) = .ok tsv → pyFloat tsv = .ok ts →
      (∃ h ∈ hs, ∃ b, holderBalance h = .ok b ∧ b > (0.5 : ℚ) * ts) →
      is_bundled_supply td = .ok true) ∧
    (hs = [] → is_bundled_supply td = .ok false) := by
  constructor
  · intro hall htsv hts hex
    rw [is_bundled_supply_eval td pair tsv hs ts hp hh htsv hts]
    have hne : hs ≠ [] := by
      rintro rfl
      simp at hex
    rw [if_neg (by simpa using hne)]
    obtain ⟨r, hr, hiff⟩ := checkHolders_ok_iff hs ts hall
    rw [hr, hiff.mpr hex]
  · rintro rfl
    exact is_bundled_supply_empty td pair hp hh

/-- C4 witness: a holder owning 60 of 100 total supply is flagged bundled;
the empty holder list of the clean pair is not. -/
theorem is_bundled_supply_spec_witness :
    is_bundled_supply exTdBundled = .ok true ∧
    is_bundled_supply exTdClean = .ok false :=
  ⟨(is_bundled_supply_spec exTdBundled exPairBundled (.jnum 100)
      [.jobj [("balance", .jnum 60)]] 100 rfl rfl).1
      (by
        intro h hh
        simp only [List.mem_singleton] at hh
        subst hh
        exact ⟨60, rfl⟩)
      rfl rfl
      ⟨.jobj [("balance", .jnum 60)], by simp, 60, rfl, by norm_num⟩,
   (is_bundled_supply_spec exTdClean exPairClean (.jnum 100) [] 100 rfl rfl).2 rfl⟩

/-- C9: with a zero (or absent, defaulting to zero) total supply the
bundled check performs no division — the comparison is `balance > 0.5 * 0` —
so it completes without error whenever every balance converts, and returns
`True` iff the holder list has a holder with a strictly positive balance. -/
theorem is_bundled_supply_zero_supply (td pair tsv : JVal) (hs : List JVal)
    (hp : pyGet td "pair" (.jobj []) = .ok pair)
    (hh : pyGet pair "holders" (.jarr []) = .ok (.jarr hs))
    (htsv : pyGet pair "totalSupply" (.jnum 0) = .ok tsv)
    (hts : pyFloat tsv = .ok 0)
    (hall : ∀ h ∈ hs, ∃ b, holderBalance h = .ok b) :
    (∃ b, is_bundled_supply td = .ok b) ∧
    (is_bundled_supply td = .ok true ↔
      ∃ h ∈ hs, ∃ b, holderBalance h = .ok b ∧ 0 < b) := by
  rw [is_bundled_supply_eval td pair tsv hs 0 hp hh htsv hts]
  cases hs with
  | nil =>
    refine ⟨⟨false, by simp⟩, ?_⟩
    simp
  | cons x xs =>
    obtain ⟨r, hr, hiff⟩ := checkHolders_ok_iff (x :: xs) 0 hall
    rw [show (x :: xs).isEmpty = false from rfl, if_neg (by simp), hr]
    refine ⟨⟨r, rfl⟩, ?_⟩
    simp only [Except.ok.injEq]
    rw [hiff]
    simp [mul_zero]

/-- C9 witness: total supply 0, one holder with balance 5: flagged bundled
without any error. -/
theorem is_bundled_supply_zero_supply_witness :
    is_bundled_supply exTdZeroSupply = .ok true :=
  (is_bundled_supply_zero_supply exTdZeroSupply exPairZeroSupply (.jnum 0)
      [.jobj [("balance", .jnum 5)]] rfl rfl rfl rfl
      (by
        intro h hh
        simp only [List.mem_singleton] at hh
        subst hh
        exact ⟨5, rfl⟩)).2.mpr
    ⟨.jobj [("balance", .jnum 5)], by simp, 5, rfl, by norm_num⟩

/-- C8: `check_rugcheck_status` returns the provider's status value on a 200
response whose JSON body carries a `status` field, and the literal
`"Unknown"` on a 200 response missing the field or on any non-200
response. -/
theorem check_rugcheck_status_spec (resp : HttpResponse)
    (fs : List (String × JVal)) (v : JVal) :
    (resp.status_code = 200 → resp.body = .jobj fs →
      lookupField fs "status" = some v → check_rugcheck_status resp = .ok v) ∧
    (resp.status_code = 200 → resp.body = .jobj fs →
      lookupField fs "status" = none →
      check_rugcheck_status resp = .ok (.jstr "Unknown")) ∧
    (resp.status_code ≠ 200 →
      check_rugcheck_status resp = .ok (.jstr "Unknown")) := by
  unfold check_rugcheck_status
  refine ⟨?_, ?_, ?_⟩
  · intro h200 hbody hlk
    rw [if_pos h200, hbody]
    simp [pyGet, hlk]
  · intro h200 hbody hlk
    rw [if_pos h200, hbody]
    simp [pyGet, hlk]
  · intro hne
    rw [if_neg hne]

/-- C8 witness: the three response shapes at concrete inputs. -/
theorem check_rugcheck_status_spec_witness :
    check_rugcheck_status ⟨200, .jobj [("status", .jstr "Good")]⟩ =
      .ok (.jstr "Good") ∧
    check_rugcheck_status ⟨200, .jobj []⟩ = .ok (.jstr "Unknown") ∧
    check_rugcheck_status ⟨500, .jnull⟩ = .ok (.jstr "Unknown") :=
  ⟨(check_rugcheck_status_spec ⟨200, .jobj [("status", .jstr "Good")]⟩
      [("status", .jstr "Good")] (.jstr "Good")).1 rfl rfl rfl,
   (check_rugcheck_status_spec ⟨200, .jobj []⟩ [] .jnull).2.1 rfl rfl rfl,
   (check_rugcheck_status_spec ⟨500, .jnull⟩ [] .jnull).2.2 (by norm_num)⟩

/-- C6: starting from blacklists holding each address at most once (they are
sets), adding the same token/developer pair twice is the same as adding it
once, each list then holds exactly one occurrence of its address, and the
persisted `config.json` contents after two additions equal those after
one. -/
theorem add_to_blacklist_idempotent (cfg : Config) (t d : String)
    (hc : countPy (.jstr t) cfg.blacklisted_coins ≤ 1)
    (hd : countPy (.jstr d) cfg.blacklisted_devs ≤ 1) :
    add_to_blacklist (add_to_blacklist cfg (.jstr t) (.jstr d)) (.jstr t) (.jstr d) =
      add_to_blacklist cfg (.jstr t) (.jstr d) ∧
    countPy (.jstr t)
      (add_to_blacklist (add_to_blacklist cfg (.jstr t) (.jstr d)) (.jstr t)
        (.jstr d)).blacklisted_coins = 1 ∧
    countPy (.jstr d)
      (add_to_blacklist (add_to_blacklist cfg (.jstr t) (.jstr d)) (.jstr t)
        (.jstr d)).blacklisted_devs = 1 ∧
    configJson
      (add_to_blacklist (add_to_blacklist cfg (.jstr t) (.jstr d)) (.jstr t)
        (.jstr d)) =
      configJson (add_to_blacklist cfg (.jstr t) (.jstr d)) := by
  have h1c : countPy (.jstr t) (add_to_blacklist cfg (.jstr t) (.jstr d)).blacklisted_coins = 1 := by
    unfold add_to_blacklist
    by_cases hm : pyMem (.jstr t) cfg.blacklisted_coins = true
    · simp only [if_pos hm]
      have := (pyMem_iff_countPy (.jstr t) cfg.blacklisted_coins).mp hm
      omega
    · simp only [Bool.not_eq_true] at hm
      simp only [hm, Bool.false_eq_true, if_false]
      rw [countPy_append_self]
      have h0 : countPy (.jstr t) cfg.blacklisted_coins = 0 := by
        by_contra hcon
        have hmem := (pyMem_iff_countPy (.jstr t) cfg.blacklisted_coins).mpr hcon
        rw [hm] at hmem
        cases hmem
      omega
  have h1d : countPy (.jstr d) (add_to_blacklist cfg (.jstr t) (.jstr d)).blacklisted_devs = 1 := by
    unfold add_to_blacklist
    by_cases hm : pyMem (.jstr d) cfg.blacklisted_devs = true
    · simp only [if_pos hm]
      have := (pyMem_iff_countPy (.jstr d) cfg.blacklisted_devs).mp hm
      omega
    · simp only [Bool.not_eq_true] at hm
      simp only [hm, Bool.false_eq_true, if_false]
      rw [countPy_append_self]
      have h0 : countPy (.jstr d) cfg.blacklisted_devs = 0 := by
        by_contra hcon
        have hmem := (pyMem_iff_countPy (.jstr d) cfg.blacklisted_devs).mpr hcon
        rw [hm] at hmem
        cases hmem
      omega
  have hidem :
      add_to_blacklist (add_to_blacklist cfg (.jstr t) (.jstr d)) (.jstr t) (.jstr d) =
        add_to_blacklist cfg (.jstr t) (.jstr d) := by
    have hm1 := add_to_blacklist_mem_coins cfg (.jstr t) (.jstr d)
    have hm2 := add_to_blacklist_mem_devs cfg (.jstr t) (.jstr d)
    conv_lhs => rw [add_to_blacklist]
    rw [if_pos hm1, if_pos hm2]
  refine ⟨hidem, ?_, ?_, ?_⟩
  · rw [hidem]
    exact h1c
  · rw [hidem]
    exact h1d
  · rw [hidem]

/-- C6 witness: adding the pair ("0xtok", "0xdev") twice to the empty
blacklists. -/
theorem add_to_blacklist_idempotent_witness :
    add_to_blacklist (add_to_blacklist exCfg (.jstr "0xtok") (.jstr "0xdev"))
        (.jstr "0xtok") (.jstr "0xdev") =
      add_to_blacklist exCfg (.jstr "0xtok") (.jstr "0xdev") ∧
    countPy (.jstr "0xtok")
      (add_to_blacklist (add_to_blacklist exCfg (.jstr "0xtok") (.jstr "0xdev"))
        (.jstr "0xtok") (.jstr "0xdev")).blacklisted_coins = 1 ∧
    countPy (.jstr "0xdev")
      (add_to_blacklist (add_to_blacklist exCfg (.jstr "0xtok") (.jstr "0xdev"))
        (.jstr "0xtok") (.jstr "0xdev")).blacklisted_devs = 1 ∧
    configJson
      (add_to_blacklist (add_to_blacklist exCfg (.jstr "0xtok") (.jstr "0xdev"))
        (.jstr "0xtok") (.jstr "0xdev")) =
      configJson (add_to_blacklist exCfg (.jstr "0xtok") (.jstr "0xdev")) :=
  add_to_blacklist_idempotent exCfg "0xtok" "0xdev" (by norm_num [countPy, exCfg])
    (by norm_num [countPy, exCfg])

/-- C1: a pipeline pass inserts a row only if, at insertion time — that is,
against the pass's final config, after any bundled-supply blacklist
addition — the token address is not in `blacklisted_coins`, the stored
developer address is not in `blacklisted_devs`, and the rugcheck status is
the literal string `"Good"`. -/
theorem insertion_gate (st : BotState) (td : JVal) (addr : String)
    (resp : HttpResponse) (st' : BotState)
    (h : save_token_data st td addr resp = .ok st')
    (hne : st'.db ≠ st.db) :
    pyMem (.jstr addr) st'.cfg.blacklisted_coins = false ∧
    ∃ row, st'.db = st.db ++ [row] ∧
      pyMem row.dev_address st'.cfg.blacklisted_devs = false ∧
      row.rugcheck_status = .jstr "Good" := by
  obtain ⟨e, rs, he, hr, hcfg, hcase⟩ := save_token_data_ok_cases st td addr resp st' h
  rcases hcase with ⟨hnb, hgood, hdb, htr⟩ | ⟨hblk, hdb, htr⟩
  · rw [is_blacklisted, Bool.or_eq_false_iff] at hnb
    refine ⟨hnb.1, mkRow e rs, hdb, ?_, ?_⟩
    · exact hnb.2
    · exact hgood
  · exact absurd hdb hne

/-- C1 witness: the scenario-1 pass inserts, and the gate conditions hold of
the resulting state. -/
theorem insertion_gate_witness :
    save_token_data exSt exTdClean "0xtok" exRespGood = .ok exStInserted ∧
    (pyMem (.jstr "0xtok") exStInserted.cfg.blacklisted_coins = false ∧
      ∃ row, exStInserted.db = exSt.db ++ [row] ∧
        pyMem row.dev_address exStInserted.cfg.blacklisted_devs = false ∧
        row.rugcheck_status = .jstr "Good") :=
  ⟨rfl, insertion_gate exSt exTdClean "0xtok" exRespGood exStInserted rfl
    (by simp [exStInserted, exSt, exCfg])⟩

/-- C2: when the pair's holder list contains a holder whose convertible
balance exceeds half the convertible total supply (all balances
convertible), any completing pass has added the token address and the
extracted developer address to the blacklist, and has inserted nothing and
traded nothing — whatever the audit response was. -/
theorem bundled_supply_blocks_insertion (st : BotState) (td pair tsv : JVal)
    (addr : String) (resp : HttpResponse) (st' : BotState) (hs : List JVal)
    (ts : ℚ)
    (hp : pyGet td "pair" (.jobj []) = .ok pair)
    (hh : pyGet pair "holders" (.jarr []) = .ok (.jarr hs))
    (htsv : pyGet pair "totalSupply" (.jnum 0) = .ok tsv)
    (hts : pyFloat tsv = .ok ts)
    (hall : ∀ h ∈ hs, ∃ b, holderBalance h = .ok b)
    (hex : ∃ h ∈ hs, ∃ b, holderBalance h = .ok b ∧ b > (0.5 : ℚ) * ts)
    (h : save_token_data st td addr resp = .ok st') :
    pyMem (.jstr addr) st'.cfg.blacklisted_coins = true ∧
    (∃ e, extractFields td = .ok e ∧
      pyMem e.dev_address st'.cfg.blacklisted_devs = true) ∧
    st'.db = st.db ∧ st'.trades = st.trades := by
  have hbun : is_bundled_supply td = .ok true := by
    rw [is_bundled_supply_eval td pair tsv hs ts hp hh htsv hts]
    have hne : hs ≠ [] := by
      rintro rfl
      simp at hex
    rw [if_neg (by simpa using hne)]
    obtain ⟨r, hr2, hiff⟩ := checkHolders_ok_iff hs ts hall
    rw [hr2, hiff.mpr hex]
  obtain ⟨e, rs, he, hr, hcfg, hcase⟩ := save_token_data_ok_cases st td addr resp st' h
  obtain ⟨-, hb2, -⟩ := extractFields_ok_props td e he
  rw [hbun] at hb2
  injection hb2 with heb
  rw [← heb, if_pos rfl] at hcfg
  have hmc : pyMem (.jstr addr) st'.cfg.blacklisted_coins = true := by
    rw [hcfg]
    exact add_to_blacklist_mem_coins st.cfg _ _
  have hmd : pyMem e.dev_address st'.cfg.blacklisted_devs = true := by
    rw [hcfg]
    exact add_to_blacklist_mem_devs st.cfg _ _
  rcases hcase with ⟨hnb, -, -, -⟩ | ⟨-, hdb, htr⟩
  · rw [is_blacklisted, hmc] at hnb
    simp at hnb
  · exact ⟨hmc, ⟨e, he, hmd⟩, hdb, htr⟩

/-- C2 witness: the scenario-2 pass (60 of 100 held by one holder, audit
status "Good") blacklists the pair and inserts nothing. -/
theorem bundled_supply_blocks_insertion_witness :
    save_token_data exSt exTdBundled "0xtok" exRespGood = .ok exStBlacklisted ∧
    (pyMem (.jstr "0xtok") exStBlacklisted.cfg.blacklisted_coins = true ∧
      (∃ e, extractFields exTdBundled = .ok e ∧
        pyMem e.dev_address exStBlacklisted.cfg.blacklisted_devs = true) ∧
      exStBlacklisted.db = exSt.db ∧ exStBlacklisted.trades = exSt.trades) := by
  have hbal : holderBalance (.jobj [("balance", .jnum 60)]) = .ok 60 := rfl
  have hbun : is_bundled_supply exTdBundled = .ok true := by
    rw [is_bundled_supply_eval exTdBundled exPairBundled (.jnum 100)
        [.jobj [("balance", .jnum 60)]] 100 rfl rfl rfl rfl]
    rw [if_neg (by simp)]
    rw [checkHolders, hbal, exBind_ok, if_pos (by norm_num)]
  have he : extractFields exTdBundled = .ok exEBundled := by
    have hstep : extractFields exTdBundled =
        (is_bundled_supply exTdBundled >>= fun bundled =>
          pure { symbol := .jstr "TOK", name := .jstr "Token", price := 2,
                 liquidity := 50000, market_cap := 2000000,
                 is_cex_listed := false, is_rugged := false, is_pumped := false,
                 dev_address := .jstr "0xdev", is_bundled := bundled }) := rfl
    rw [hstep, hbun, exBind_ok]
    rfl
  have hsave : save_token_data exSt exTdBundled "0xtok" exRespGood =
      .ok exStBlacklisted := by
    unfold save_token_data
    rw [he, exBind_ok,
        show check_rugcheck_status exRespGood = .ok (.jstr "Good") from rfl,
        exBind_ok]
    rfl
  refine ⟨hsave, ?_⟩
  exact bundled_supply_blocks_insertion exSt exTdBundled exPairBundled (.jnum 100)
    "0xtok" exRespGood exStBlacklisted [.jobj [("balance", .jnum 60)]] 100
    rfl rfl rfl rfl
    (by
      intro h hh
      simp only [List.mem_singleton] at hh
      subst hh
      exact ⟨60, rfl⟩)
    ⟨.jobj [("balance", .jnum 60)], by simp, 60, rfl, by norm_num⟩
    hsave

/-- C5: the is_rugged flag stored in any inserted observation is true iff
that row's liquidity and price are both exactly zero. -/
theorem is_rugged_flag_iff (st : BotState) (td : JVal) (addr : String)
    (resp : HttpResponse) (st' : BotState) (row : TokenRow)
    (h : save_token_data st td addr resp = .ok st')
    (hrow : st'.db = st.db ++ [row]) :
    row.is_rugged = true ↔ row.liquidity = 0 ∧ row.price = 0 := by
  obtain ⟨e, rs, he, hr, hcfg, hcase⟩ := save_token_data_ok_cases st td addr resp st' h
  rcases hcase with ⟨-, -, hdb, -⟩ | ⟨-, hdb, -⟩
  · rw [hdb] at hrow
    have h2 := List.append_cancel_left hrow
    have hre : mkRow e rs = row := by simpa using h2
    rw [← hre]
    obtain ⟨hrug, -, -⟩ := extractFields_ok_props td e he
    show e.is_rugged = true ↔ e.liquidity = 0 ∧ e.price = 0
    rw [hrug]
    simp
  · rw [hdb] at hrow
    have := congrArg List.length hrow
    simp at this

/-- C5 witness: the scenario-1 inserted row (liquidity 50000, price 2) is
not flagged rugged. -/
theorem is_rugged_flag_iff_witness :
    exRowClean.is_rugged = true ↔
      exRowClean.liquidity = 0 ∧ exRowClean.price = 0 :=
  is_rugged_flag_iff exSt exTdClean "0xtok" exRespGood exStInserted exRowClean
    rfl rfl

/-- C10: the developer address the pass extracts is exactly the pair's
`baseToken.address` lookup (empty-string default); it is the value stored in
any inserted row, and the value the insertion gate tested against
`blacklisted_devs`. -/
theorem dev_address_is_base_token_address (st : BotState) (td pair bt dv : JVal)
    (addr : String) (resp : HttpResponse) (st' : BotState)
    (h : save_token_data st td addr resp = .ok st')
    (hp : pyGet td "pair" (.jobj []) = .ok pair)
    (hb : pyGet pair "baseToken" (.jobj []) = .ok bt)
    (ha : pyGet bt "address" (.jstr "") = .ok dv) :
    (∃ e, extractFields td = .ok e ∧ e.dev_address = dv) ∧
    (∀ row, st'.db = st.db ++ [row] → row.dev_address = dv) ∧
    (st'.db ≠ st.db → pyMem dv st'.cfg.blacklisted_devs = false) := by
  obtain ⟨e, rs, he, hrr, hcfg, hcase⟩ := save_token_data_ok_cases st td addr resp st' h
  obtain ⟨-, -, hdev⟩ := extractFields_ok_props td e he
  have hedv : e.dev_address = dv := hdev pair bt dv hp hb ha
  refine ⟨⟨e, he, hedv⟩, ?_, ?_⟩
  · intro row hrow
    rcases hcase with ⟨-, -, hdb, -⟩ | ⟨-, hdb, -⟩
    · rw [hdb] at hrow
      have h2 := List.append_cancel_left hrow
      have hre : mkRow e rs = row := by simpa using h2
      rw [← hre]
      exact hedv
    · rw [hdb] at hrow
      have := congrArg List.length hrow
      simp at this
  · intro hne
    rcases hcase with ⟨hnb, -, -, -⟩ | ⟨-, hdb, -⟩
    · rw [is_blacklisted, Bool.or_eq_false_iff] at hnb
      rw [← hedv]
      exact hnb.2
    · exact absurd hdb hne

/-- C10 witness: in the scenario-1 pass the stored developer address is the
pair's `baseToken.address` value `"0xdev"`. -/
theorem dev_address_is_base_token_address_witness :
    (∃ e, extractFields exTdClean = .ok e ∧ e.dev_address = .jstr "0xdev") ∧
    (∀ row, exStInserted.db = exSt.db ++ [row] →
      row.dev_address = .jstr "0xdev") ∧
    (exStInserted.db ≠ exSt.db →
      pyMem (.jstr "0xdev") exStInserted.cfg.blacklisted_devs = false) :=
  dev_address_is_base_token_address exSt exTdClean exPairClean
    (.jobj [("symbol", .jstr "TOK"), ("name", .jstr "Token"),
            ("address", .jstr "0xdev")])
    (.jstr "0xdev") "0xtok" exRespGood exStInserted rfl rfl rfl rfl

end CryptoBot
